import Mathlib

/-!
Verification of the OPA Med Calculator (src/App.py).

The computational core of the program is embedded over exact rationals:
Python floats become `ℚ` (so `50.0` is written `50`, etc.), Python's
`round(x, 2)` (round-half-to-even) becomes `round2`, `float(str)` on the
decimal weight literals becomes `parseFloat`, and the "Calculate Doses"
button handler becomes `calculateDoses` over an explicit `AppState` of
the widget values, returning a structural `RunResult` describing the
messages the handler emits.  String splitting and stripping are done on
the character lists underlying the strings.
-/

/-- `LBS_TO_KG` of App.py: the pounds-to-kilograms conversion factor. -/
def LBS_TO_KG : ℚ := 0.453592

/-- Round a rational to the nearest integer, ties to the even integer:
Python's `round` on the half-way case. -/
def roundHalfEven (q : ℚ) : ℤ :=
  let f := ⌊q⌋
  let frac := q - (f : ℚ)
  if frac < 1/2 then f
  else if 1/2 < frac then f + 1
  else if f % 2 = 0 then f else f + 1

/-- Python's `round(q, 2)`: round to two decimal places, ties to even. -/
def round2 (q : ℚ) : ℚ := (roundHalfEven (q * 100) : ℚ) / 100

/-- `DRUG_DATA` of App.py: the static medication catalog, as the ordered
association list `name ↦ (dose rate mg/kg, concentration mg/unit, unit)`. -/
def DRUG_DATA : List (String × ℚ × ℚ × String) :=
  [("Select a Medication", 0, 0, "mL"),
   ("Toltrazuril (Tolt)", 33, 50, "mL"),
   ("Panacur (Fenbendazole)", 50, 100, "mL"),
   ("Doxycycline (Pill)", 5, 50, "Pill")]

/-- `calculate_dose` of App.py. -/
def calculate_dose (weight_kg dose_rate_mg_kg concentration_mg_unit : ℚ)
    (unit_type : String) : ℚ × String :=
  if concentration_mg_unit ≤ 0 ∨ weight_kg ≤ 0 ∨ dose_rate_mg_kg ≤ 0 then
    (0, "mL")
  else
    if unit_type = "Pill" then
      (round2 (weight_kg * dose_rate_mg_kg / concentration_mg_unit), unit_type)
    else
      (round2 (weight_kg * dose_rate_mg_kg / concentration_mg_unit), unit_type)

/-- Numeric value of a list of decimal digit characters. -/
def digitsVal (cs : List Char) : ℕ :=
  cs.foldl (fun a c => 10 * a + (c.toNat - 48)) 0

/-- Parse an unsigned decimal literal (digits, optionally a point and more
digits, at least one digit in all): the fragment of Python's `float` the
weight lines use. -/
def parseUnsigned (cs : List Char) : Option ℚ :=
  let ip := cs.takeWhile Char.isDigit
  let rest := cs.dropWhile Char.isDigit
  match rest with
  | [] => if ip.isEmpty then none else some ((digitsVal ip : ℚ))
  | c :: rest2 =>
    if c = '.' then
      let fp := rest2.takeWhile Char.isDigit
      let rest3 := rest2.dropWhile Char.isDigit
      if rest3.isEmpty then
        if ip.isEmpty && fp.isEmpty then none
        else some ((digitsVal ip : ℚ) + (digitsVal fp : ℚ) / (10 : ℚ) ^ fp.length)
      else none
    else none

/-- Python's `float(s)` restricted to optionally signed decimal literals;
`none` models the `ValueError` the handler catches. -/
def parseFloat (s : String) : Option ℚ :=
  match s.data with
  | [] => none
  | c :: cs =>
    if c = '+' then parseUnsigned cs
    else if c = '-' then (parseUnsigned cs).map (fun q => -q)
    else parseUnsigned (c :: cs)

/-- Split a character list at newline characters, keeping empty pieces:
Python's `str.split('\n')`. -/
def splitNl : List Char → List (List Char)
  | [] => [[]]
  | c :: rest =>
    match splitNl rest with
    | [] => if c = '\n' then [[], []] else [[c]]
    | l :: ls => if c = '\n' then [] :: l :: ls else (c :: l) :: ls

/-- Remove leading and trailing whitespace: Python's `str.strip()`. -/
def stripCh (cs : List Char) : List Char :=
  ((cs.dropWhile Char.isWhitespace).reverse.dropWhile Char.isWhitespace).reverse

/-- One line of output of the weight loop: a per-animal success message or
the per-line `ValueError` message. -/
inductive LineResult where
  | ok (weight_lbs dose_amount : ℚ) (final_unit : String)
  | parseError (raw : String)
deriving DecidableEq, Repr

/-- Outcome of one press of the "Calculate Doses" button: one of the three
early error/warning messages, or the per-animal lines together with the
litter total and its unit label. -/
inductive RunResult where
  | selectError
  | zeroError
  | emptyWarning
  | results (lines : List LineResult) (total : ℚ) (unit : String)
deriving DecidableEq, Repr

/-- The widget values a calculation run reads: the selectbox choice, the
sidebar custom fields, and the weights text area. -/
structure AppState where
  selected_drug : String
  custom_dose_rate : ℚ
  custom_concentration : ℚ
  custom_unit_type : String
  weights_input : String
deriving DecidableEq, Repr

/-- `use_custom` of App.py: the custom override is active. -/
def use_custom (s : AppState) : Bool :=
  decide (0 < s.custom_dose_rate) && decide (0 < s.custom_concentration)

/-- The `(dose_rate, concentration, unit_type, drug_name_display)` the
custom/preset selection branch of App.py leaves in scope for the run.
`selected_drug` comes from a selectbox over the keys of `DRUG_DATA`, so
the lookup never misses; the `none` arm is unreachable for UI states. -/
def effective (s : AppState) : ℚ × ℚ × String × String :=
  if use_custom s then
    (s.custom_dose_rate, s.custom_concentration, s.custom_unit_type, "Custom Medication")
  else if s.selected_drug = "Select a Medication" then
    (0, 0, "mL", "")
  else
    match DRUG_DATA.lookup s.selected_drug with
    | some (r, c, u) => (r, c, u, s.selected_drug)
    | none => (0, 0, "mL", s.selected_drug)

/-- `raw_weights` of App.py: the stripped, non-blank lines of the weights
text area. -/
def rawWeights (s : AppState) : List String :=
  (((splitNl s.weights_input.data).map (fun l => String.mk (stripCh l))).filter
    (fun w => w ≠ ""))

/-- The contribution of one output line to `total_dose`: the dose amount
of a success line, nothing for a parse-error line. -/
def doseAmount : LineResult → ℚ
  | .ok _ d _ => d
  | .parseError _ => 0

/-- One iteration of the weight loop of App.py: parse the line, convert
LBS to KG, call `calculate_dose`; `ValueError` becomes `parseError`. -/
def processLine (dose_rate concentration : ℚ) (unit_type : String)
    (weight_str : String) : LineResult :=
  match parseFloat weight_str with
  | none => .parseError weight_str
  | some weight_lbs =>
    .ok weight_lbs
      (calculate_dose (weight_lbs * LBS_TO_KG) dose_rate concentration unit_type).1
      (calculate_dose (weight_lbs * LBS_TO_KG) dose_rate concentration unit_type).2

/-- The "Calculate Doses" button handler of App.py (lines 125-171). -/
def calculateDoses (s : AppState) : RunResult :=
  if use_custom s = false ∧ s.selected_drug = "Select a Medication" then
    .selectError
  else if (effective s).1 = 0 ∨ (effective s).2.1 = 0 then
    .zeroError
  else if rawWeights s = [] then
    .emptyWarning
  else
    .results ((rawWeights s).map (processLine (effective s).1 (effective s).2.1 (effective s).2.2.1))
      (round2 (((rawWeights s).map (processLine (effective s).1 (effective s).2.1 (effective s).2.2.1)).foldl
        (fun acc l => acc + doseAmount l) 0))
      ((effective s).2.2.1)

/-- The numeric constraints the sidebar widgets put on a state:
both custom number inputs have `min_value=0.0`. -/
def ValidState (s : AppState) : Prop :=
  0 ≤ s.custom_dose_rate ∧ 0 ≤ s.custom_concentration

/-- A state with a catalog medication chosen, inactive custom fields, and
weight text `w`: the Toltrazuril selection. -/
def toltState (w : String) : AppState :=
  { selected_drug := "Toltrazuril (Tolt)", custom_dose_rate := 0,
    custom_concentration := 0, custom_unit_type := "mL", weights_input := w }

/-- Like `toltState`, with the Doxycycline (pill) selection. -/
def doxyState (w : String) : AppState :=
  { selected_drug := "Doxycycline (Pill)", custom_dose_rate := 0,
    custom_concentration := 0, custom_unit_type := "mL", weights_input := w }

/-- A state whose sidebar custom fields are filled in (both positive). -/
def customState : AppState :=
  { selected_drug := "Toltrazuril (Tolt)", custom_dose_rate := 2,
    custom_concentration := 5, custom_unit_type := "Pill", weights_input := "" }

/-- A state with the sentinel selection, no custom override and one
weight line. -/
def sentinelState : AppState :=
  { selected_drug := "Select a Medication", custom_dose_rate := 0,
    custom_concentration := 0, custom_unit_type := "mL", weights_input := "10" }

section RoundingLemmas

lemma roundHalfEven_low {q : ℚ} {n : ℤ} (h1 : (n : ℚ) ≤ q) (h2 : q < (n : ℚ) + 1/2) :
    roundHalfEven q = n := by
  have hf : ⌊q⌋ = n := by
    rw [Int.floor_eq_iff]
    refine ⟨h1, ?_⟩
    linarith
  simp only [roundHalfEven, hf]
  rw [if_pos (by linarith)]

lemma roundHalfEven_high {q : ℚ} {n : ℤ} (h1 : (n : ℚ) + 1/2 < q) (h2 : q < (n : ℚ) + 1) :
    roundHalfEven q = n + 1 := by
  have hf : ⌊q⌋ = n := by
    rw [Int.floor_eq_iff]
    constructor
    · linarith
    · linarith
  simp only [roundHalfEven, hf]
  rw [if_neg (by linarith), if_pos (by linarith)]

lemma roundHalfEven_intCast (n : ℤ) : roundHalfEven (n : ℚ) = n :=
  roundHalfEven_low (by norm_num) (by norm_num)

lemma round2_low {q : ℚ} {n : ℤ} (h1 : (n : ℚ) ≤ q * 100) (h2 : q * 100 < (n : ℚ) + 1/2) :
    round2 q = (n : ℚ) / 100 := by
  rw [round2, roundHalfEven_low h1 h2]

lemma round2_high {q : ℚ} {n : ℤ} (h1 : (n : ℚ) + 1/2 < q * 100) (h2 : q * 100 < (n : ℚ) + 1) :
    round2 q = ((n : ℚ) + 1) / 100 := by
  rw [round2, roundHalfEven_high h1 h2]
  push_cast
  ring

lemma round2_zero : round2 0 = 0 := by
  have h : round2 0 = ((0 : ℤ) : ℚ) / 100 := round2_low (by norm_num) (by norm_num)
  simpa using h

lemma round2_intCast_div (n : ℤ) : round2 ((n : ℚ) / 100) = (n : ℚ) / 100 := by
  rw [round2, div_mul_cancel₀ _ (by norm_num : (100 : ℚ) ≠ 0), roundHalfEven_intCast]

end RoundingLemmas

section CoreLemmas

lemma calculate_dose_guard {weight_kg dose_rate concentration : ℚ} (unit_type : String)
    (h : concentration ≤ 0 ∨ weight_kg ≤ 0 ∨ dose_rate ≤ 0) :
    calculate_dose weight_kg dose_rate concentration unit_type = (0, "mL") := by
  unfold calculate_dose
  rw [if_pos h]

lemma calculate_dose_pos {weight_kg dose_rate concentration : ℚ} (unit_type : String)
    (hw : 0 < weight_kg) (hr : 0 < dose_rate) (hc : 0 < concentration) :
    calculate_dose weight_kg dose_rate concentration unit_type =
      (round2 (weight_kg * dose_rate / concentration), unit_type) := by
  unfold calculate_dose
  rw [if_neg (by push_neg; exact ⟨hc, hw, hr⟩)]
  split <;> rfl

lemma LBS_TO_KG_pos : 0 < LBS_TO_KG := by norm_num [LBS_TO_KG]

lemma calculate_dose_fst_round2 (weight_kg dose_rate concentration : ℚ) (unit_type : String) :
    round2 ((calculate_dose weight_kg dose_rate concentration unit_type).1) =
      (calculate_dose weight_kg dose_rate concentration unit_type).1 := by
  unfold calculate_dose
  split
  · simpa using round2_zero
  · split <;> exact round2_intCast_div _

lemma run_eval (s : AppState) (dr c : ℚ) (ut disp : String)
    (he : effective s = (dr, c, ut, disp))
    (h1 : ¬(use_custom s = false ∧ s.selected_drug = "Select a Medication"))
    (h2 : ¬(dr = 0 ∨ c = 0))
    (h3 : rawWeights s ≠ []) :
    calculateDoses s =
      .results ((rawWeights s).map (processLine dr c ut))
        (round2 (((rawWeights s).map (processLine dr c ut)).foldl
          (fun acc l => acc + doseAmount l) 0)) ut := by
  simp only [calculateDoses, he]
  rw [if_neg h1, if_neg h2, if_neg h3]

lemma results_inv (s : AppState) (lines : List LineResult) (total : ℚ) (unit : String)
    (h : calculateDoses s = .results lines total unit) :
    lines = (rawWeights s).map
        (processLine (effective s).1 (effective s).2.1 (effective s).2.2.1) ∧
    total = round2 (lines.foldl (fun acc l => acc + doseAmount l) 0) ∧
    unit = (effective s).2.2.1 ∧
    (effective s).1 ≠ 0 ∧ (effective s).2.1 ≠ 0 := by
  unfold calculateDoses at h
  by_cases c1 : use_custom s = false ∧ s.selected_drug = "Select a Medication"
  · rw [if_pos c1] at h
    simp at h
  · rw [if_neg c1] at h
    by_cases c2 : (effective s).1 = 0 ∨ (effective s).2.1 = 0
    · rw [if_pos c2] at h
      simp at h
    · rw [if_neg c2] at h
      by_cases c3 : rawWeights s = []
      · rw [if_pos c3] at h
        simp at h
      · rw [if_neg c3] at h
        injection h with e1 e2 e3
        push_neg at c2
        exact ⟨e1.symm, by rw [← e2, e1], e3.symm, c2.1, c2.2⟩

lemma foldl_doseAmount (l : List LineResult) (a : ℚ) :
    l.foldl (fun acc x => acc + doseAmount x) a = a + (l.map doseAmount).sum := by
  induction l generalizing a with
  | nil => simp
  | cons x xs ih => simp [ih, add_assoc]

lemma lookup_nonneg (k : String) (r c : ℚ) (u : String)
    (h : DRUG_DATA.lookup k = some (r, c, u)) : 0 ≤ r ∧ 0 ≤ c := by
  simp only [DRUG_DATA, List.lookup] at h
  repeat' split at h
  any_goals exact Option.noConfusion h
  all_goals simp only [Option.some.injEq, Prod.mk.injEq] at h
  all_goals obtain ⟨h1, h2, h3⟩ := h
  all_goals constructor <;> linarith

end CoreLemmas


section EvalLemmas

lemma processLine_none {w : String} (dr c : ℚ) (ut : String) (h : parseFloat w = none) :
    processLine dr c ut w = .parseError w := by
  unfold processLine
  rw [h]

lemma processLine_some {w : String} {q : ℚ} (dr c : ℚ) (ut : String)
    (h : parseFloat w = some q) :
    processLine dr c ut w =
      .ok q (calculate_dose (q * LBS_TO_KG) dr c ut).1
        (calculate_dose (q * LBS_TO_KG) dr c ut).2 := by
  unfold processLine
  rw [h]

lemma processLine_pos {w : String} {q : ℚ} (dr c : ℚ) (ut : String)
    (h : parseFloat w = some q) (hq : 0 < q) (hdr : 0 < dr) (hc : 0 < c) :
    processLine dr c ut w = .ok q (round2 (q * LBS_TO_KG * dr / c)) ut := by
  rw [processLine_some dr c ut h,
    calculate_dose_pos ut (mul_pos hq LBS_TO_KG_pos) hdr hc]

lemma foldl_add_map {α : Type} (g : α → ℚ) (l : List α) (a : ℚ) :
    l.foldl (fun acc x => acc + g x) a = a + (l.map g).sum := by
  induction l generalizing a with
  | nil => simp
  | cons x xs ih => simp [ih, add_assoc]

lemma effective_nonneg (s : AppState) (hv : ValidState s) :
    0 ≤ (effective s).1 ∧ 0 ≤ (effective s).2.1 := by
  unfold effective
  split
  · exact ⟨hv.1, hv.2⟩
  · split
    · norm_num
    · split
      · rename_i r c u hl
        exact lookup_nonneg _ _ _ _ hl
      · norm_num

lemma parseFloat_25 : parseFloat ("2.5") = some (5/2) := by
  rw [show parseFloat ("2.5") =
      some ((digitsVal ['2'] : ℚ) + (digitsVal ['5'] : ℚ) / 10 ^ 1) from rfl,
    show digitsVal ['2'] = 2 from rfl, show digitsVal ['5'] = 5 from rfl]
  norm_num

lemma parseFloat_29 : parseFloat ("2.9") = some (29/10) := by
  rw [show parseFloat ("2.9") =
      some ((digitsVal ['2'] : ℚ) + (digitsVal ['9'] : ℚ) / 10 ^ 1) from rfl,
    show digitsVal ['2'] = 2 from rfl, show digitsVal ['9'] = 9 from rfl]
  norm_num

lemma parseFloat_10 : parseFloat ("10") = some 10 := by
  rw [show parseFloat ("10") = some ((digitsVal ['1', '0'] : ℚ)) from rfl,
    show digitsVal ['1', '0'] = 10 from rfl]
  norm_num

lemma parseFloat_0 : parseFloat ("0") = some 0 := by
  rw [show parseFloat ("0") = some ((digitsVal ['0'] : ℚ)) from rfl,
    show digitsVal ['0'] = 0 from rfl]
  norm_num

lemma round2_tolt10 : round2 (10 * LBS_TO_KG * 33 / 50) = 299/100 := by
  have h := round2_low (q := 10 * LBS_TO_KG * 33 / 50) (n := 299)
    (by norm_num [LBS_TO_KG]) (by norm_num [LBS_TO_KG])
  rw [h]
  norm_num

lemma round2_tolt25 : round2 (5/2 * LBS_TO_KG * 33 / 50) = 75/100 := by
  have h := round2_high (q := 5/2 * LBS_TO_KG * 33 / 50) (n := 74)
    (by norm_num [LBS_TO_KG]) (by norm_num [LBS_TO_KG])
  rw [h]
  norm_num

lemma round2_tolt29 : round2 (29/10 * LBS_TO_KG * 33 / 50) = 87/100 := by
  have h := round2_high (q := 29/10 * LBS_TO_KG * 33 / 50) (n := 86)
    (by norm_num [LBS_TO_KG]) (by norm_num [LBS_TO_KG])
  rw [h]
  norm_num

lemma round2_doxy10 : round2 (10 * LBS_TO_KG * 5 / 50) = 45/100 := by
  have h := round2_low (q := 10 * LBS_TO_KG * 5 / 50) (n := 45)
    (by norm_num [LBS_TO_KG]) (by norm_num [LBS_TO_KG])
  rw [h]
  norm_num

lemma run_tolt10 :
    calculateDoses (toltState ("10")) =
      .results [LineResult.ok 10 (299/100) ("mL")] (299/100) ("mL") := by
  rw [run_eval (toltState ("10")) 33 50 ("mL") ("Toltrazuril (Tolt)") rfl
    (by decide) (by norm_num) (by decide)]
  rw [show rawWeights (toltState ("10")) = [("10" : String)] from by decide]
  simp only [List.map_cons, List.map_nil, List.foldl_cons, List.foldl_nil]
  rw [processLine_pos 33 50 ("mL") parseFloat_10 (by norm_num) (by norm_num) (by norm_num),
    round2_tolt10]
  simp only [doseAmount]
  rw [show (0 : ℚ) + 299/100 = ((299 : ℤ) : ℚ)/100 from by norm_num, round2_intCast_div]
  norm_num

lemma run_tolt_mixed :
    calculateDoses (toltState ("2.5\nabc\n2.9")) =
      .results [LineResult.ok (5/2) (75/100) ("mL"), LineResult.parseError ("abc"),
        LineResult.ok (29/10) (87/100) ("mL")] (162/100) ("mL") := by
  rw [run_eval (toltState ("2.5\nabc\n2.9")) 33 50 ("mL") ("Toltrazuril (Tolt)") rfl
    (by decide) (by norm_num) (by decide)]
  rw [show rawWeights (toltState ("2.5\nabc\n2.9")) =
    [("2.5" : String), ("abc" : String), ("2.9" : String)] from by decide]
  simp only [List.map_cons, List.map_nil, List.foldl_cons, List.foldl_nil]
  rw [processLine_pos 33 50 ("mL") parseFloat_25 (by norm_num) (by norm_num) (by norm_num),
    processLine_pos 33 50 ("mL") parseFloat_29 (by norm_num) (by norm_num) (by norm_num),
    processLine_none 33 50 ("mL") (show parseFloat ("abc") = none from rfl), round2_tolt25, round2_tolt29]
  simp only [doseAmount]
  rw [show (0 : ℚ) + 75/100 + 0 + 87/100 = ((162 : ℤ) : ℚ)/100 from by norm_num,
    round2_intCast_div]
  norm_num

lemma run_doxy_zero :
    calculateDoses (doxyState ("10\n0")) =
      .results [LineResult.ok 10 (45/100) ("Pill"), LineResult.ok 0 0 ("mL")]
        (45/100) ("Pill") := by
  rw [run_eval (doxyState ("10\n0")) 5 50 ("Pill") ("Doxycycline (Pill)") rfl
    (by decide) (by norm_num) (by decide)]
  rw [show rawWeights (doxyState ("10\n0")) = [("10" : String), ("0" : String)] from by decide]
  simp only [List.map_cons, List.map_nil, List.foldl_cons, List.foldl_nil]
  rw [processLine_pos 5 50 ("Pill") parseFloat_10 (by norm_num) (by norm_num) (by norm_num),
    processLine_some 5 50 ("Pill") parseFloat_0,
    calculate_dose_guard ("Pill") (Or.inr (Or.inl (by norm_num [LBS_TO_KG]))),
    round2_doxy10]
  simp only [doseAmount]
  rw [show (0 : ℚ) + 45/100 + 0 = ((45 : ℤ) : ℚ)/100 from by norm_num, round2_intCast_div]
  norm_num

end EvalLemmas

/-- C1: for every weightLbs > 0, doseRateMgPerKg > 0 and concentration > 0,
the per-animal dose pipeline (convert pounds to kilograms with factor
0.453592, then apply the dose calculator) returns
round(weightLbs * 0.453592 * doseRateMgPerKg / concentration, 2) together
with the requested output unit; in particular weight 10 lbs with rate
33.0 and concentration 50.0 yields 2.99. -/
theorem dose_pipeline_formula :
    (∀ (w r c : ℚ) (u : String), 0 < w → 0 < r → 0 < c →
      calculate_dose (w * LBS_TO_KG) r c u = (round2 (w * LBS_TO_KG * r / c), u)) ∧
    calculate_dose (10 * LBS_TO_KG) 33 50 ("mL") = (299/100, "mL") := by
  constructor
  · intro w r c u hw hr hc
    exact calculate_dose_pos u (mul_pos hw LBS_TO_KG_pos) hr hc
  · rw [calculate_dose_pos ("mL") (mul_pos (by norm_num) LBS_TO_KG_pos)
      (by norm_num) (by norm_num), round2_tolt10]

theorem dose_pipeline_formula_witness :
    calculate_dose (2 * LBS_TO_KG) 33 50 ("mL") =
      (round2 (2 * LBS_TO_KG * 33 / 50), "mL") :=
  dose_pipeline_formula.1 2 33 50 ("mL") (by norm_num) (by norm_num) (by norm_num)

/-- C2 counterexample: the static catalog has only four entries (the
sentinel, Toltrazuril, Panacur and Doxycycline); the claimed Amoxicillin,
Metronidazole, Pyrantel Pamoate and Clavamox entries do not exist. -/
theorem drug_data_four_entries :
    DRUG_DATA.length = 4 ∧
    DRUG_DATA.map Prod.fst =
      ["Select a Medication", "Toltrazuril (Tolt)", "Panacur (Fenbendazole)",
        "Doxycycline (Pill)"] :=
  ⟨rfl, rfl⟩

/-- C2 (amended): the static medication catalog contains exactly the
all-zero sentinel, Toltrazuril (33.0, 50.0, mL), Panacur/Fenbendazole
(50, 100.0, mL) and Doxycycline (5.0, 50.0, Pill). -/
theorem drug_data_catalog :
    DRUG_DATA.lookup ("Select a Medication") = some (0, 0, "mL") ∧
    DRUG_DATA.lookup ("Toltrazuril (Tolt)") = some (33, 50, "mL") ∧
    DRUG_DATA.lookup ("Panacur (Fenbendazole)") = some (50, 100, "mL") ∧
    DRUG_DATA.lookup ("Doxycycline (Pill)") = some (5, 50, "Pill") ∧
    DRUG_DATA.length = 4 :=
  ⟨rfl, rfl, rfl, rfl, rfl⟩

/-- C4: whenever the concentration, the converted weight in kilograms or
the dose rate is ≤ 0, the dose calculator returns exactly (0.0, "mL")
whatever the requested unit; in particular a zero dose rate always gives
(0.0, "mL"). -/
theorem guard_zero_result :
    (∀ (wkg r c : ℚ) (u : String), c ≤ 0 ∨ wkg ≤ 0 ∨ r ≤ 0 →
      calculate_dose wkg r c u = (0, "mL")) ∧
    (∀ (w c : ℚ) (u : String), calculate_dose (w * LBS_TO_KG) 0 c u = (0, "mL")) :=
  ⟨fun _ _ _ u h => calculate_dose_guard u h,
   fun _ _ u => calculate_dose_guard u (Or.inr (Or.inr le_rfl))⟩

theorem guard_zero_result_witness :
    calculate_dose 5 0 50 ("Pill") = (0, "mL") :=
  guard_zero_result.1 5 0 50 ("Pill") (Or.inr (Or.inr le_rfl))

/-- C6: the custom override is active iff both custom numeric fields are
strictly positive; when active the custom rate, concentration and unit
supersede the catalog selection; when inactive the run falls back to the
catalog selection (or the sentinel-blocked state). -/
theorem custom_override_rule (s : AppState) :
    (use_custom s = true ↔ 0 < s.custom_dose_rate ∧ 0 < s.custom_concentration) ∧
    (use_custom s = true →
      effective s = (s.custom_dose_rate, s.custom_concentration,
        s.custom_unit_type, "Custom Medication")) ∧
    (use_custom s = false → s.selected_drug = "Select a Medication" →
      effective s = (0, 0, "mL", "")) ∧
    (use_custom s = false → s.selected_drug ≠ "Select a Medication" →
      ∀ (r c : ℚ) (u : String), DRUG_DATA.lookup s.selected_drug = some (r, c, u) →
        effective s = (r, c, u, s.selected_drug)) := by
  refine ⟨?_, ?_, ?_, ?_⟩
  · simp [use_custom]
  · intro h
    unfold effective
    rw [if_pos h]
  · intro h1 h2
    unfold effective
    rw [if_neg (by simp [h1]), if_pos h2]
  · intro h1 h2 r c u hl
    unfold effective
    rw [if_neg (by simp [h1]), if_neg h2, hl]

theorem custom_override_rule_witness :
    effective customState = (2, 5, "Pill", "Custom Medication") ∧
    effective (toltState ("")) = (33, 50, "mL", "Toltrazuril (Tolt)") :=
  ⟨(custom_override_rule customState).2.1 (by decide),
   (custom_override_rule (toltState (""))).2.2.2 (by decide) (by decide)
     33 50 ("mL") rfl⟩

/-- C7: with the sentinel "no selection" medication selected and no
custom override active, the batch driver refuses to calculate, emitting
the select-a-medication error and performing no dose calculation. -/
theorem sentinel_refuses (s : AppState)
    (h1 : s.selected_drug = "Select a Medication")
    (h2 : use_custom s = false) :
    calculateDoses s = .selectError := by
  unfold calculateDoses
  rw [if_pos ⟨h2, h1⟩]

theorem sentinel_refuses_witness :
    calculateDoses sentinelState = .selectError :=
  sentinel_refuses sentinelState rfl rfl

/-- C3: for every run that reaches calculation, the emitted batch total
equals round-to-2-places of the sum of the individually already-rounded
per-animal dose amounts (round each, then sum, then round the total),
labeled with the run's output unit. -/
theorem litter_total_rounding (s : AppState) (lines : List LineResult) (total : ℚ)
    (unit : String) (h : calculateDoses s = .results lines total unit) :
    total = round2 (lines.foldl (fun acc l => acc + doseAmount l) 0) ∧
    (∀ l ∈ lines, round2 (doseAmount l) = doseAmount l) ∧
    unit = (effective s).2.2.1 := by
  obtain ⟨e1, e2, e3, _, _⟩ := results_inv s lines total unit h
  refine ⟨e2, ?_, e3⟩
  intro l hl
  rw [e1] at hl
  obtain ⟨w, hw, rfl⟩ := List.mem_map.mp hl
  cases hp : parseFloat w with
  | none =>
    rw [processLine_none _ _ _ hp]
    simpa [doseAmount] using round2_zero
  | some q =>
    rw [processLine_some _ _ _ hp]
    simpa [doseAmount] using calculate_dose_fst_round2 (q * LBS_TO_KG) _ _ _

theorem litter_total_rounding_witness :
    (299/100 : ℚ) = round2 ([LineResult.ok 10 (299/100) ("mL")].foldl
      (fun acc l => acc + doseAmount l) 0) ∧
    (∀ l ∈ [LineResult.ok 10 (299/100) ("mL")], round2 (doseAmount l) = doseAmount l) ∧
    ("mL") = (effective (toltState ("10"))).2.2.1 :=
  litter_total_rounding (toltState ("10")) _ _ _ run_tolt10

/-- C9: a run whose weight input consists only of blank or whitespace-only
lines never produces per-animal results or a total: it ends in one of the
three early messages (in particular the enter-a-weight prompt when the
medication data is valid). -/
theorem blank_input_no_results (s : AppState)
    (h : ∀ l ∈ splitNl s.weights_input.data, stripCh l = []) :
    calculateDoses s = .selectError ∨ calculateDoses s = .zeroError ∨
      calculateDoses s = .emptyWarning := by
  have hr : rawWeights s = [] := by
    unfold rawWeights
    rw [List.filter_eq_nil_iff]
    intro a ha
    obtain ⟨l, hl, rfl⟩ := List.mem_map.mp ha
    rw [h l hl]
    simp
  by_cases c1 : use_custom s = false ∧ s.selected_drug = "Select a Medication"
  · left
    unfold calculateDoses
    rw [if_pos c1]
  · by_cases c2 : (effective s).1 = 0 ∨ (effective s).2.1 = 0
    · right
      left
      unfold calculateDoses
      rw [if_neg c1, if_pos c2]
    · right
      right
      unfold calculateDoses
      rw [if_neg c1, if_neg c2, if_pos hr]

theorem blank_input_no_results_witness :
    calculateDoses (toltState ("  \n ")) = .selectError ∨
    calculateDoses (toltState ("  \n ")) = .zeroError ∨
    calculateDoses (toltState ("  \n ")) = .emptyWarning :=
  blank_input_no_results (toltState ("  \n ")) (by decide)

/-- C10: a run with at least one non-blank weight line still emits the
batch total even when every non-blank line fails to parse: the result is
the list of per-line parse errors with total 0.0 in the run's unit. -/
theorem all_unparseable_total_zero (s : AppState)
    (h1 : ¬(use_custom s = false ∧ s.selected_drug = "Select a Medication"))
    (h2 : (effective s).1 ≠ 0) (h3 : (effective s).2.1 ≠ 0)
    (h4 : rawWeights s ≠ [])
    (h5 : ∀ w ∈ rawWeights s, parseFloat w = none) :
    calculateDoses s =
      .results ((rawWeights s).map LineResult.parseError) 0 ((effective s).2.2.1) := by
  have hmap : (rawWeights s).map
      (processLine (effective s).1 (effective s).2.1 (effective s).2.2.1) =
      (rawWeights s).map LineResult.parseError := by
    apply List.map_congr_left
    intro w hw
    exact processLine_none _ _ _ (h5 w hw)
  rw [run_eval s (effective s).1 (effective s).2.1 (effective s).2.2.1
    (effective s).2.2.2 rfl h1 (not_or.mpr ⟨h2, h3⟩) h4, hmap]
  have aux : ∀ L : List String,
      ((L.map LineResult.parseError).map doseAmount).sum = 0 := by
    intro L
    induction L with
    | nil => simp
    | cons x xs ih => simp [doseAmount, ← List.map_map, ih]
  have htot : round2 (((rawWeights s).map LineResult.parseError).foldl
      (fun acc l => acc + doseAmount l) 0) = 0 := by
    rw [foldl_add_map, aux, add_zero, round2_zero]
  rw [htot]

theorem all_unparseable_total_zero_witness :
    calculateDoses (toltState ("abc")) =
      .results ((rawWeights (toltState ("abc"))).map LineResult.parseError) 0
        ((effective (toltState ("abc"))).2.2.1) :=
  all_unparseable_total_zero (toltState ("abc")) (by decide) (by decide) (by decide)
    (by decide) (by decide)

/-- C5 counterexample: a Doxycycline (Pill) run whose weight list contains
0 produces one per-animal entry in "Pill" and one in "mL", while the
total is labeled "Pill": the entries do not all carry the run's unit. -/
theorem unit_mixed_run :
    calculateDoses (doxyState ("10\n0")) =
      .results [LineResult.ok 10 (45/100) ("Pill"), LineResult.ok 0 0 ("mL")]
        (45/100) ("Pill") ∧
    ("mL" : String) ≠ "Pill" :=
  ⟨run_doxy_zero, by decide⟩

/-- C5 (amended): in a run from a UI-reachable state (custom fields ≥ 0),
every per-animal entry whose parsed weight is positive carries the run's
unit (which also labels the total); an entry with a non-positive weight
degrades to the guard result, unit "mL" and dose 0. -/
theorem dose_unit_uniform_amended (s : AppState) (hv : ValidState s)
    (lines : List LineResult) (total : ℚ) (unit : String)
    (h : calculateDoses s = .results lines total unit) :
    unit = (effective s).2.2.1 ∧
    ∀ (w d : ℚ) (u : String), LineResult.ok w d u ∈ lines →
      (0 < w → u = unit) ∧ (w ≤ 0 → u = "mL" ∧ d = 0) := by
  obtain ⟨e1, _, e3, hz1, hz2⟩ := results_inv s lines total unit h
  have hnn := effective_nonneg s hv
  have hdr : 0 < (effective s).1 := lt_of_le_of_ne hnn.1 (Ne.symm hz1)
  have hc : 0 < (effective s).2.1 := lt_of_le_of_ne hnn.2 (Ne.symm hz2)
  refine ⟨e3, ?_⟩
  intro w d u hmem
  rw [e1] at hmem
  obtain ⟨ws, hws, heq⟩ := List.mem_map.mp hmem
  cases hp : parseFloat ws with
  | none =>
    rw [processLine_none _ _ _ hp] at heq
    exact LineResult.noConfusion heq
  | some q =>
    rw [processLine_some _ _ _ hp] at heq
    injection heq with hqw hXd hYu
    subst hqw
    constructor
    · intro hwpos
      rw [← hYu, calculate_dose_pos _ (mul_pos hwpos LBS_TO_KG_pos) hdr hc]
      exact e3.symm
    · intro hwle
      have hkg : q * LBS_TO_KG ≤ 0 := by nlinarith [LBS_TO_KG_pos]
      have hg : calculate_dose (q * LBS_TO_KG) (effective s).1 (effective s).2.1
          (effective s).2.2.1 = (0, "mL") :=
        calculate_dose_guard _ (Or.inr (Or.inl hkg))
      constructor
      · rw [← hYu, hg]
      · rw [← hXd, hg]

theorem dose_unit_uniform_amended_witness :
    (("Pill" : String) = (effective (doxyState ("10\n0"))).2.2.1) ∧
    ∀ (w d : ℚ) (u : String),
      LineResult.ok w d u ∈
        [LineResult.ok 10 (45/100) ("Pill"), LineResult.ok 0 0 ("mL")] →
      (0 < w → u = "Pill") ∧ (w ≤ 0 → u = "mL" ∧ d = 0) :=
  dose_unit_uniform_amended (doxyState ("10\n0")) ⟨le_refl 0, le_refl 0⟩ _ _ _
    run_doxy_zero

/-- C8: the batch driver skips blank and whitespace-only lines, and a
line that fails to parse yields exactly one per-line error entry in
place: every other line still produces its result, and the total sums
exactly the parseable lines' doses (parse failure is non-fatal and
localized). -/
theorem parse_error_localized (s : AppState) (pre post : List String) (bad : String)
    (lines : List LineResult) (total : ℚ) (unit : String)
    (h : calculateDoses s = .results lines total unit)
    (hraw : rawWeights s = pre ++ bad :: post)
    (hbad : parseFloat bad = none) :
    (("" : String) ∉ rawWeights s) ∧
    lines = pre.map (processLine (effective s).1 (effective s).2.1 (effective s).2.2.1) ++
      LineResult.parseError bad ::
        post.map (processLine (effective s).1 (effective s).2.1 (effective s).2.2.1) ∧
    total = round2 ((pre ++ post).foldl
      (fun acc ws => acc + doseAmount
        (processLine (effective s).1 (effective s).2.1 (effective s).2.2.1 ws)) 0) := by
  obtain ⟨e1, e2, e3, _, _⟩ := results_inv s lines total unit h
  refine ⟨?_, ?_, ?_⟩
  · unfold rawWeights
    simp [List.mem_filter]
  · rw [e1, hraw]
    simp only [List.map_append, List.map_cons]
    rw [processLine_none _ _ _ hbad]
  · rw [e2, e1, hraw, foldl_add_map, foldl_add_map]
    congr 1
    simp only [List.map_append, List.map_cons, List.map_map, List.sum_append,
      List.sum_cons, processLine_none _ _ _ hbad, Function.comp_def]
    rw [show doseAmount (LineResult.parseError bad) = 0 from rfl]
    ring

theorem parse_error_localized_witness :
    (("" : String) ∉ rawWeights (toltState ("2.5\nabc\n2.9"))) ∧
    [LineResult.ok (5/2) (75/100) ("mL"), LineResult.parseError ("abc"),
        LineResult.ok (29/10) (87/100) ("mL")] =
      [("2.5" : String)].map (processLine (effective (toltState ("2.5\nabc\n2.9"))).1
          (effective (toltState ("2.5\nabc\n2.9"))).2.1
          (effective (toltState ("2.5\nabc\n2.9"))).2.2.1) ++
        LineResult.parseError ("abc") ::
          [("2.9" : String)].map (processLine (effective (toltState ("2.5\nabc\n2.9"))).1
            (effective (toltState ("2.5\nabc\n2.9"))).2.1
            (effective (toltState ("2.5\nabc\n2.9"))).2.2.1) ∧
    (162/100 : ℚ) = round2 (([("2.5" : String)] ++ [("2.9" : String)]).foldl
      (fun acc ws => acc + doseAmount
        (processLine (effective (toltState ("2.5\nabc\n2.9"))).1
          (effective (toltState ("2.5\nabc\n2.9"))).2.1
          (effective (toltState ("2.5\nabc\n2.9"))).2.2.1 ws)) 0) :=
  parse_error_localized (toltState ("2.5\nabc\n2.9")) [("2.5")] [("2.9")] ("abc")
    [LineResult.ok (5/2) (75/100) ("mL"), LineResult.parseError ("abc"),
      LineResult.ok (29/10) (87/100) ("mL")]
    (162/100) ("mL") run_tolt_mixed (by decide)
    (show parseFloat ("abc") = none from rfl)
